import Mathlib

/-!
# Verification development for `gsvt`

Shallow embedding of the `gsvt` embeddable vector store (schema migration
engine, vector byte codec, similarity engine, similarity-query pipeline),
together with theorems settling the specification claims.

Conventions of the embedding:
* Go `string` is `String`; Go slices of statements are `List String`.
* Go `float64` values are modelled in `ℚ` where the development only relies
  on exact arithmetic (all concrete inputs below are chosen so that the
  corresponding IEEE-754 double computations are exact), and by their 64-bit
  bit patterns (`Nat < 2^64`) where the code treats them as opaque words
  (the byte codec: `math.Float64bits`/`math.Float64frombits` are bijections
  between doubles and words, so byte-level behavior is fully captured).
* Fallible Go code (`(T, error)` returns) becomes `Except Unit`; a Go runtime
  panic (out-of-range slice or index access) becomes `Option.none`.
* `Type` is a Lean keyword, so the `Column.Type` field is named `Ty`.
-/

namespace Gsvt

/-- Column of a schema (src/schema.go `Column`). `Ty` is the Go field `Type`. -/
structure Column where
  Name : String
  Ty : String
  Required : Bool
  Default : String
  PrimaryKey : Bool
deriving DecidableEq, Repr

/-- Index of a schema (src/schema.go `Index`). -/
structure Index where
  Name : String
  Columns : List Column
deriving DecidableEq, Repr

/-- Table schema (src/schema.go `Schema`). -/
structure Schema where
  Name : String
  Columns : List Column
  Indexes : List Index
deriving DecidableEq, Repr

/-- Structural column equality (src/schema.go `Column.Equal`): all five fields. -/
def Column.Equal (c other : Column) : Bool :=
  c.Name == other.Name && c.Ty == other.Ty && c.Required == other.Required &&
    c.Default == other.Default && c.PrimaryKey == other.PrimaryKey

/-- Membership of a column in a column list (src/schema.go `Column.IsIn`):
the Go loop tests `column.Equal(c)` for each `column` of the list. -/
def Column.IsIn (c : Column) (columns : List Column) : Bool :=
  columns.any (fun column => column.Equal c)

/-- Column clause of a CREATE TABLE statement (src/schema.go `Column.ColumnSQL`). -/
def Column.ColumnSQL (c : Column) : String :=
  c.Name ++ " " ++ c.Ty ++
    (if c.Required then " NOT NULL" else "") ++
    (if c.PrimaryKey then " PRIMARY KEY" else "") ++
    (if c.Default != "" then " DEFAULT " ++ c.Default else "")

/-- Structural index equality (src/schema.go `Index.Equal`): same column count,
every column of `other` structurally present in `i`, same name. -/
def Index.Equal (i other : Index) : Bool :=
  i.Columns.length == other.Columns.length &&
    other.Columns.all (fun column => column.IsIn i.Columns) &&
    i.Name == other.Name

/-- Membership of an index in an index list (src/schema.go `Index.IsIn`). -/
def Index.IsIn (i : Index) (indexes : List Index) : Bool :=
  indexes.any (fun index => index.Equal i)

/-- CREATE INDEX statement (src/schema.go `Index.CreateIndexSQL`): the on-wire
index name is `<tablename>_<index.Name>`; columns in declared order. -/
def Index.CreateIndexSQL (i : Index) (tablename : String) : String :=
  "CREATE INDEX IF NOT EXISTS " ++ (tablename ++ "_" ++ i.Name) ++ " ON " ++
    tablename ++ "(" ++ String.intercalate ", " (i.Columns.map (fun col => col.Name)) ++ ")"

/-- CREATE TABLE statement (src/schema.go `Schema.CreateTableSQL`):
columns emitted in declared order, comma separated. -/
def Schema.CreateTableSQL (s : Schema) : String :=
  "CREATE TABLE IF NOT EXISTS " ++ s.Name ++ "(" ++
    String.intercalate ", " (s.Columns.map Column.ColumnSQL) ++ ")"

/-- Schema delta (src/schema.go `Schema.GenerateDifference`):
`(addColumns, removeColumns, addIndexes, removeIndexes)` taking us FROM `s` TO
`other`, each a structural-membership set difference preserving declaration
order (the Go loops append in iteration order, i.e. `List.filter`). -/
def Schema.GenerateDifference (s other : Schema) :
    List Column × List Column × List Index × List Index :=
  (other.Columns.filter (fun col => !(col.IsIn s.Columns)),
   s.Columns.filter (fun col => !(col.IsIn other.Columns)),
   other.Indexes.filter (fun index => !(index.IsIn s.Indexes)),
   s.Indexes.filter (fun index => !(index.IsIn other.Indexes)))

/-- Row-copy statement (src/schema.go `Schema.SQLMigrate`): INSERT ... SELECT of
the given columns from `otherTableName` into `s.Name`. -/
def Schema.SQLMigrate (s : Schema) (otherTableName : String) (columns : List Column) : String :=
  "INSERT INTO " ++ s.Name ++ "(" ++
    String.intercalate ", " (columns.map (fun col => col.Name)) ++ ")" ++
    " SELECT " ++ String.intercalate ", " (columns.map (fun col => col.Name)) ++
    " FROM " ++ otherTableName

/-- Migration plan (src/schema.go `Schema.AlterSchemaSQL`): SQL taking us FROM
`s` TO `other`. Rebuild path when a column is added/removed or the name
differs: drop all of `s`'s indexes, rename to `<name>_tmp`, create `other`'s
table and indexes, copy the shared columns. Index-only path otherwise: drop
removed indexes, create added indexes. -/
def Schema.AlterSchemaSQL (s other : Schema) : List String :=
  let diff := s.GenerateDifference other
  let addColumns := diff.1
  let removeColumns := diff.2.1
  let addIndexes := diff.2.2.1
  let removeIndexes := diff.2.2.2
  let tableChanges :=
    addColumns.length != 0 || removeColumns.length != 0 || s.Name != other.Name
  if tableChanges then
    (s.Indexes.map (fun index => "DROP INDEX IF EXISTS " ++ (s.Name ++ "_" ++ index.Name))) ++
      ["ALTER TABLE " ++ s.Name ++ " RENAME TO " ++ (s.Name ++ "_tmp")] ++
      [other.CreateTableSQL] ++
      other.Indexes.map (fun index => index.CreateIndexSQL other.Name) ++
      [s.SQLMigrate (s.Name ++ "_tmp") (s.Columns.filter (fun col => col.IsIn other.Columns))]
  else
    (removeIndexes.map (fun index => "DROP INDEX IF EXISTS " ++ (s.Name ++ "_" ++ index.Name))) ++
      addIndexes.map (fun index => index.CreateIndexSQL other.Name)

/-- Statements executed by `DB.createTable` (src/utils_test.go `createTable`):
the CREATE TABLE statement followed by one CREATE INDEX per declared index. -/
def Schema.createTableQueries (s : Schema) : List String :=
  s.CreateTableSQL :: s.Indexes.map (fun index => index.CreateIndexSQL s.Name)

/-- Statements executed by `DB.Migrate` (src/utils_test.go `Migrate`/`alterTable`),
with the live schema discovered by `FromSQL` passed in as `discoveredSchema`
(`none` when the table does not exist). When the table exists the Go code runs
`db.schema.AlterSchemaSQL(discoveredSchema)` — desired as the base, live as the
target — which this definition mirrors verbatim. -/
def migrateQueries (dbSchema : Schema) (discoveredSchema : Option Schema) : List String :=
  match discoveredSchema with
  | none => dbSchema.createTableQueries
  | some other => dbSchema.AlterSchemaSQL other

/-- Concrete column `id INTEGER` used in the migration verdicts. -/
def colId : Column := ⟨"id", "INTEGER", false, "", false⟩

/-- Concrete column `name TEXT` used in the migration verdicts. -/
def colName : Column := ⟨"name", "TEXT", false, "", false⟩

/-- Concrete desired schema `tbl(id INTEGER, name TEXT)`. -/
def desiredSchema : Schema := ⟨"tbl", [colId, colName], []⟩

/-- Concrete live schema `tbl(id INTEGER)`. -/
def liveSchema : Schema := ⟨"tbl", [colId], []⟩

/-- Concrete index `i1` on `id`, used in the index-only-path witness. -/
def idx1 : Index := ⟨"i1", [colId]⟩

/-- Concrete index `i2` on `id`. -/
def idx2 : Index := ⟨"i2", [colId]⟩

/-- Concrete index `i3` on `id`. -/
def idx3 : Index := ⟨"i3", [colId]⟩

/-- Concrete index `i4` on `id`. -/
def idx4 : Index := ⟨"i4", [colId]⟩

/-- Concrete index `i5` on `id`. -/
def idx5 : Index := ⟨"i5", [colId]⟩

/-- Concrete base schema with four indexes (index-only-path witness). -/
def baseIdxSchema : Schema := ⟨"tbl", [colId], [idx1, idx2, idx3, idx4]⟩

/-- Concrete target schema: same name and columns, index `i4` removed and
index `i5` added (index-only-path witness). -/
def newIdxSchema : Schema := ⟨"tbl", [colId], [idx1, idx2, idx3, idx5]⟩

/-!
## Vector codec (src/vector.go)

Embeddings are modelled by the 64-bit patterns of their components
(`math.Float64bits` / `math.Float64frombits` are mutually inverse bit
reinterpretations, so the byte-level behavior of the codec is fully captured
by words `< 2^64`). Bytes are `Nat < 256`.
-/

/-- The eight little-endian bytes `binary.LittleEndian.PutUint64` writes for
one 64-bit word (one `float64` component in src/vector.go `ToBytes`). -/
def putUint64LE (w : Nat) : List Nat :=
  [w % 256, w / 256 % 256, w / 65536 % 256, w / 16777216 % 256,
   w / 4294967296 % 256, w / 1099511627776 % 256,
   w / 281474976710656 % 256, w / 72057594037927936 % 256]

/-- The 64-bit word `binary.LittleEndian.Uint64` reads from eight bytes
(one component in src/vector.go `FromBytes`). -/
def uint64LE (b0 b1 b2 b3 b4 b5 b6 b7 : Nat) : Nat :=
  b0 + 256 * b1 + 65536 * b2 + 16777216 * b3 + 4294967296 * b4 +
    1099511627776 * b5 + 281474976710656 * b6 + 72057594037927936 * b7

/-- src/vector.go `Vector.ToBytes`: 8 bytes per component, little-endian,
concatenated in index order, no header. -/
def ToBytes (v : List Nat) : List Nat :=
  v.flatMap putUint64LE

/-- src/vector.go `Vector.FromBytes`: consumes the byte array in groups of
eight, writing component `index/8` for each group. When 1–7 bytes remain the
Go code performs an out-of-range slice and vector-index access and panics,
modelled as `none`; it has no error return value. -/
def FromBytes : List Nat → Option (List Nat)
  | [] => some []
  | b0 :: b1 :: b2 :: b3 :: b4 :: b5 :: b6 :: b7 :: rest =>
      (FromBytes rest).map (fun ws => uint64LE b0 b1 b2 b3 b4 b5 b6 b7 :: ws)
  | _ => none

/-!
## Similarity engine (src/vector.go)
-/

/-- src/vector.go `COSINE`. -/
def COSINE : Nat := 0

/-- src/vector.go `EUCLIDEAN`. -/
def EUCLIDEAN : Nat := 1

/-- src/vector.go `DOT_PRODUCT`. -/
def DOT_PRODUCT : Nat := 2

/-- src/vector.go `SimilarityOptions`. -/
structure SimilarityOptions where
  Method : Nat
  Workers : Nat

/-- Model of `math.Sqrt` restricted to the exact fragment the development
evaluates it on: on perfect-square rationals (the only inputs any concrete
theorem below reaches) the IEEE-754 double square root is exact and equals
this function; elsewhere this model is an unspecified rational stand-in and
no theorem relies on its value. Theorems that must hold for every possible
square-root behavior take the square-root function as a parameter instead. -/
def ratSqrt (q : ℚ) : ℚ :=
  (Nat.sqrt q.num.toNat : ℚ) / (Nat.sqrt q.den : ℚ)

/-- Dot product of two embeddings over the paired components. -/
def dotQ (a b : List ℚ) : ℚ :=
  ((a.zip b).map (fun p => p.1 * p.2)).sum

/-- External collaborator `govector.Cosine`, modelled from the spec (§4.4):
fails on operand length mismatch or zero magnitude, else dot(a,b)/(‖a‖·‖b‖).
No claim verdict in this file depends on the value branch. -/
def govectorCosine (a b : List ℚ) : Except Unit ℚ :=
  if a.length != b.length then .error ()
  else
    let norms := ratSqrt (dotQ a a) * ratSqrt (dotQ b b)
    if norms = 0 then .error () else .ok (dotQ a b / norms)

/-- External collaborator `govector.DotProduct`, modelled from the spec (§4.4):
fails on operand length mismatch, else Σ aᵢ·bᵢ. -/
def govectorDotProduct (a b : List ℚ) : Except Unit ℚ :=
  if a.length != b.length then .error () else .ok (dotQ a b)

/-- src/vector.go `Vector.cosineSimilarity`: delegates to `govector.Cosine`. -/
def cosineSimilarity (v other : List ℚ) : Except Unit ℚ :=
  govectorCosine v other

/-- src/vector.go `Vector.euclideanDistance`: the body is a stub — the
computation is commented out and the function returns `0.0, nil` for every
pair of vectors. -/
def euclideanDistance (v other : List ℚ) : Except Unit ℚ :=
  .ok 0

/-- src/vector.go `Vector.dotProduct`: delegates to `govector.DotProduct`. -/
def dotProduct (v other : List ℚ) : Except Unit ℚ :=
  govectorDotProduct v other

/-- src/vector.go `Vector.SimilarityToVector`: dispatch on `options.Method`,
defaulting to cosine. -/
def SimilarityToVector (v other : List ℚ) (options : SimilarityOptions) : Except Unit ℚ :=
  if options.Method == COSINE then cosineSimilarity v other
  else if options.Method == EUCLIDEAN then euclideanDistance v other
  else if options.Method == DOT_PRODUCT then dotProduct v other
  else cosineSimilarity v other

/-- The spec's Euclidean method (§4.4), written from the spec's words for
comparison with the source's `euclideanDistance`: the negative Euclidean
distance −√Σ(aᵢ−bᵢ)². -/
def specNegativeEuclidean (a b : List ℚ) : ℚ :=
  -(ratSqrt (((a.zip b).map (fun p => (p.1 - p.2) ^ 2)).sum))

/-!
## Concurrent similarity-set computation (src/vector.go `SimilarityToVectorSet`)

The worker pool is modelled by an explicit schedule: each worker receives the
(channel-ordered) sub-list of indices it drains. `pair i` stands for the call
`v.SimilarityToVector(vectors[i], options)` made for index `i`, and the shared
pre-zeroed output buffer is a function `Nat → ℚ` (Go: `make([]float64, n)`).
The claim-deciding line is the worker body's error branch, which returns `nil`
for the errgroup — so the error value is discarded.
-/

/-- One worker goroutine body from `SimilarityToVectorSet`: drain the indices,
compute each pair; on a per-pair error stop and hand `nil` (`none`) back to the
errgroup — discarding the error; otherwise write the similarity into the shared
buffer at the index's own slot. Returns the buffer and the worker's error value. -/
def workerRun (pair : Nat → Except Unit ℚ) :
    List Nat → (Nat → ℚ) → (Nat → ℚ) × Option Unit
  | [], similarities => (similarities, none)
  | index :: rest, similarities =>
      match pair index with
      | .error _ => (similarities, none)
      | .ok s => workerRun pair rest (Function.update similarities index s)

/-- Run every worker of the schedule over the shared buffer and collect the
first non-`nil` error any of them returned (`errgroup.Group.Wait`). -/
def runWorkers (pair : Nat → Except Unit ℚ) :
    List (List Nat) → (Nat → ℚ) → (Nat → ℚ) × Option Unit
  | [], similarities => (similarities, none)
  | indices :: ws, similarities =>
      let r := workerRun pair indices similarities
      let rest := runWorkers pair ws r.1
      (rest.1, r.2.orElse (fun _ => rest.2))

/-- src/vector.go `SimilarityToVectorSet` for `n` candidate vectors under a
given worker schedule: if `group.Wait()` yields an error the call fails,
otherwise the buffer contents are returned in index order. -/
def SimilarityToVectorSetModel (pair : Nat → Except Unit ℚ) (n : Nat)
    (schedule : List (List Nat)) : Except Unit (List ℚ) :=
  let run := runWorkers pair schedule (fun _ => 0)
  match run.2 with
  | some e => .error e
  | none => .ok ((List.range n).map run.1)

/-!
## QuerySimilarity post-sort pipeline (src/utils_test.go `QuerySimilarity`)

After `Query` and `SimilarityToVectorSet`, the code sorts `vectors` together
with their scores in descending score order and then applies the outlier
cutoff and the limit. The two stages below embed the code from the sorted
state on; they operate on a model of the two Go slices that keeps each
backing array (whose length is the slice capacity) together with the current
slice length, because the final `[0:Limit]` re-slice is bounded by capacity,
not by length.
-/

/-- src/utils_test.go `FilterOptions` (the `SimilarityOptions` field plays no
role after the sort and is not represented). -/
structure FilterOptions where
  StdDeviations : ℚ
  Limit : Nat

/-- The two Go slices of the pipeline: `vectors` (element type `α`) and
`sortedSimilarities`, each as backing array plus current length. On entry to
the cutoff stage both lengths equal the candidate count `N`; the vectors
backing array has `capacity ≥ N` (append growth), the similarity backing array
has capacity exactly `N` (`make([]float64, N)`). -/
structure QueryBuffers (α : Type) where
  vBacking : List α
  vLen : Nat
  sBacking : List ℚ
  sLen : Nat

/-- src/utils_test.go `meanAndStandardDeviation`: population mean and standard
deviation (`math.Sqrt` passed in as `sqrtFn`, see `ratSqrt`). -/
def meanAndStandardDeviation (sqrtFn : ℚ → ℚ) (values : List ℚ) : ℚ × ℚ :=
  let mean := values.sum / (values.length : ℚ)
  let variance := (values.map (fun value => (value - mean) ^ 2)).sum / (values.length : ℚ)
  (mean, sqrtFn variance)

/-- The cutoff-index loop of `QuerySimilarity`: `cutoffIndex` starts at 0 and
is set to the index of the first similarity strictly below `outlier`, breaking
there; if no similarity is below `outlier` it remains 0. -/
def cutoffLoop (outlier : ℚ) : List ℚ → Nat → Nat
  | [], _ => 0
  | similarity :: rest, index =>
      if similarity < outlier then index else cutoffLoop outlier rest (index + 1)

/-- The `options.StdDeviations > 0` outlier-truncation block of
`QuerySimilarity`: compute mean/stddev over the (sorted) similarity window,
`outlier := mean + stdDeviations*stdDev`, find the cutoff index and re-slice
both slices to `[0:cutoffIndex]` (backing arrays unchanged). -/
def cutoffStage {α : Type} (sqrtFn : ℚ → ℚ) (stdDeviations : ℚ)
    (st : QueryBuffers α) : QueryBuffers α :=
  if 0 < stdDeviations then
    let sims := st.sBacking.take st.sLen
    let ms := meanAndStandardDeviation sqrtFn sims
    let outlier := ms.1 + stdDeviations * ms.2
    let cutoffIndex := cutoffLoop outlier sims 0
    { st with vLen := cutoffIndex, sLen := cutoffIndex }
  else st

/-- The final limit block of `QuerySimilarity`: `Limit == 0` returns the
current windows; otherwise the code returns `vectors[0:Limit]` and
`sortedSimilarities[0:Limit]` (evaluated in that order), each of which panics
(`none`) when `Limit` exceeds the capacity of its backing array and otherwise
re-slices the backing array — even past the current length. -/
def limitStage {α : Type} (limit : Nat) (st : QueryBuffers α) :
    Option (List α × List ℚ) :=
  if limit = 0 then some (st.vBacking.take st.vLen, st.sBacking.take st.sLen)
  else if limit ≤ st.vBacking.length then
    if limit ≤ st.sBacking.length then
      some (st.vBacking.take limit, st.sBacking.take limit)
    else none
  else none

/-- `QuerySimilarity` from the sorted state on: outlier cutoff then limit. -/
def querySimilarityPostSort {α : Type} (sqrtFn : ℚ → ℚ) (options : FilterOptions)
    (st : QueryBuffers α) : Option (List α × List ℚ) :=
  limitStage options.Limit (cutoffStage sqrtFn options.StdDeviations st)

/-- The pipeline state right after the sort: `vectors` holds the `N` sorted
candidates (with `capPad` the capacity slack of its backing array left by
append growth, every entry of which is the zero value), `sortedSimilarities`
holds the `N` sorted scores at capacity exactly `N`. -/
def postSortBuffers {α : Type} (sortedVectors capPad : List α)
    (sortedSims : List ℚ) : QueryBuffers α :=
  ⟨sortedVectors ++ capPad, sortedVectors.length, sortedSims, sortedSims.length⟩

/-!
## Theorems
-/

/-- Claim C1. The claim states that with `StdDeviations > 0` the result is the
longest prefix of the sorted candidate list scoring at least
`mean + StdDeviations·stddev`, and in particular that all candidates are
returned when every score clears the threshold. The code violates this: its
cutoff loop leaves `cutoffIndex = 0` when no score is strictly below the
threshold, so a candidate set whose every score clears the threshold comes
back empty. Here: two candidates with scores `[1, 1]` and
`StdDeviations = 3/2` give mean 1, stddev 0, threshold 1 — every score clears
the threshold (second conjunct) — yet both windows are truncated to length 0
(first conjuncts). All double arithmetic at this input is exact, so the ℚ
model computes the very values the Go code computes. -/
theorem cutoff_all_clear_returns_empty :
    (cutoffStage ratSqrt (3 / 2) (postSortBuffers [10, 20] ([] : List ℕ) [1, 1])).sLen = 0 ∧
    (cutoffStage ratSqrt (3 / 2) (postSortBuffers [10, 20] ([] : List ℕ) [1, 1])).vLen = 0 ∧
    (∀ s ∈ [(1 : ℚ), 1],
      (meanAndStandardDeviation ratSqrt [1, 1]).1 +
        3 / 2 * (meanAndStandardDeviation ratSqrt [1, 1]).2 ≤ s) := by
  refine ⟨?_, ?_, ?_⟩ <;>
    norm_num [cutoffStage, postSortBuffers, meanAndStandardDeviation, cutoffLoop, ratSqrt]

/-- Claim C2. The claim states that `Migrate` on an existing, differing table
executes `plan(live, desired)`, leaving the table in the desired shape. The
code instead runs `db.schema.AlterSchemaSQL(discoveredSchema)` =
`plan(desired, live)`: at desired `tbl(id INTEGER, name TEXT)` and live
`tbl(id INTEGER)`, the executed statements contain the CREATE TABLE of the
live shape and not of the desired shape, while the plan the claim names —
`plan(live, desired)` — contains the desired CREATE TABLE. -/
theorem migrate_plan_wrong_direction :
    migrateQueries desiredSchema (some liveSchema) =
      desiredSchema.AlterSchemaSQL liveSchema ∧
    liveSchema.CreateTableSQL ∈ migrateQueries desiredSchema (some liveSchema) ∧
    desiredSchema.CreateTableSQL ∉ migrateQueries desiredSchema (some liveSchema) ∧
    desiredSchema.CreateTableSQL ∈ liveSchema.AlterSchemaSQL desiredSchema := by
  exact ⟨rfl, by decide, by decide, by decide⟩

/-- Claim C3. The claim states that the Euclidean method returns the negative
Euclidean distance. The source's `euclideanDistance` is a stub returning
`0.0, nil` for every input; at vectors `[0]` and `[3]` the method (also via
the `SimilarityToVector` dispatch) yields `0`, whereas the spec's value
−√Σ(aᵢ−bᵢ)² is `−3` — and `0 ≠ −3`. -/
theorem euclidean_method_is_stub :
    SimilarityToVector [0] [3] ⟨EUCLIDEAN, 1⟩ = .ok 0 ∧
    euclideanDistance [0] [3] = .ok 0 ∧
    specNegativeEuclidean [0] [3] = -3 ∧
    (0 : ℚ) ≠ -3 := by
  refine ⟨rfl, rfl, ?_, by norm_num⟩
  norm_num [specNegativeEuclidean, ratSqrt, Int.toNat]

/-- Claim C5. The claim states that a failing per-pair computation inside
`SimilarityToVectorSet` surfaces as a ComputationError and that no partial
results are returned. In the code the worker body's error branch is
`if err != nil { return nil }` — it hands `nil` to the errgroup, discarding
the error — so `group.Wait()` sees no failure and the zero-initialized buffer
is returned as a successful result. Here: one candidate whose per-pair
computation fails (realizable e.g. as a cosine length mismatch, base `[1]`
against candidate `[1, 2]`), one worker draining index 0: the call returns
`.ok [0]` — a partial, zeroed result and no error. -/
theorem similarity_set_drops_worker_error :
    SimilarityToVectorSetModel (fun _ => .error ()) 1 [[0]] = .ok [0] ∧
    (fun _ => (Except.error () : Except Unit ℚ)) 0 = .error () := by
  exact ⟨rfl, rfl⟩

/-- Claim C6. The claim states that every rebuild-path plan contains an
explicit statement dropping the temporary table after the INSERT ... SELECT
copy. The plan generated by the code for the rebuild from `tbl(id INTEGER)`
to `tbl(id INTEGER, name TEXT)` is exactly rename → create → copy, and none
of its statements is a DROP TABLE statement. -/
theorem rebuild_plan_never_drops_tmp :
    liveSchema.AlterSchemaSQL desiredSchema =
      ["ALTER TABLE tbl RENAME TO tbl_tmp",
       "CREATE TABLE IF NOT EXISTS tbl(id INTEGER, name TEXT)",
       "INSERT INTO tbl(id) SELECT id FROM tbl_tmp"] ∧
    ∀ q ∈ liveSchema.AlterSchemaSQL desiredSchema,
      q.data.take 10 ≠ "DROP TABLE".data := by
  decide

/-- Claim C4 counterexample. The claim states that decoding fails for every
byte sequence whose length is not a positive multiple of 8. The empty byte
array has such a length (0 is a multiple of 8 but not a positive one), yet
`FromBytes` succeeds on it, producing the empty embedding — Go allocates a
length-0 vector and the loop body never runs. -/
theorem fromBytes_empty_input_decodes :
    ([] : List Nat).length = 0 ∧
    (∀ k : Nat, 0 < k → ([] : List Nat).length ≠ 8 * k) ∧
    FromBytes ([] : List Nat) = some [] := by
  refine ⟨rfl, ?_, rfl⟩
  intro k hk
  simp only [List.length_nil]
  omega

/-- Claim C4, amended: for every byte sequence of positive length that is not
a multiple of 8, decoding aborts — the Go loop's final iteration performs an
out-of-range slice/vector access and panics (modelled as `none`) — rather than
truncating or succeeding; it does not report a FormatError, as `FromBytes`
has no error return value at all. (Decoding the empty sequence, by contrast,
succeeds with the empty embedding; see the counterexample.) -/
theorem fromBytes_ragged_aborts (bs : List Nat) (h1 : 0 < bs.length)
    (h2 : bs.length % 8 ≠ 0) : FromBytes bs = none := by
  induction bs using FromBytes.induct with
  | case1 => simp at h1
  | case2 b0 b1 b2 b3 b4 b5 b6 b7 rest ih =>
      have hr : rest.length % 8 ≠ 0 := by
        simp only [List.length_cons] at h2
        omega
      have hp : 0 < rest.length := by
        rcases Nat.eq_zero_or_pos rest.length with hz | hpos
        · exfalso
          apply h2
          simp [List.length_cons, hz]
        · exact hpos
      simp only [FromBytes, ih hp hr, Option.map_none']
  | case3 t hnil hcons =>
      rcases t with _ | ⟨b0, _ | ⟨b1, _ | ⟨b2, _ | ⟨b3, _ | ⟨b4, _ | ⟨b5, _ | ⟨b6, _ | ⟨b7, rest⟩⟩⟩⟩⟩⟩⟩⟩
      · exact absurd rfl hnil
      · rfl
      · rfl
      · rfl
      · rfl
      · rfl
      · rfl
      · rfl
      · exact absurd rfl (hcons b0 b1 b2 b3 b4 b5 b6 b7 rest)

/-- Witness for `fromBytes_ragged_aborts` at the 4-byte input `[1, 2, 3, 4]`. -/
theorem fromBytes_ragged_aborts_witness :
    0 < ([1, 2, 3, 4] : List Nat).length ∧
    ([1, 2, 3, 4] : List Nat).length % 8 ≠ 0 ∧
    FromBytes [1, 2, 3, 4] = none :=
  ⟨by decide, by decide, fromBytes_ragged_aborts [1, 2, 3, 4] (by decide) (by decide)⟩

/-- Reassembling the eight little-endian bytes of a word below `2^64`
recovers the word. -/
theorem uint64LE_putUint64LE (w : Nat) (h : w < 18446744073709551616) :
    uint64LE (w % 256) (w / 256 % 256) (w / 65536 % 256) (w / 16777216 % 256)
      (w / 4294967296 % 256) (w / 1099511627776 % 256)
      (w / 281474976710656 % 256) (w / 72057594037927936 % 256) = w := by
  simp only [uint64LE]
  omega

/-- Claim C9. Encode/decode round trip: for every embedding (components given
by their 64-bit IEEE-754 bit patterns, hence words `< 2^64`;
`math.Float64bits` and `math.Float64frombits` are mutually inverse, so this
captures the double sequence exactly), decoding the encoded bytes yields the
original sequence — including the empty sequence — and the encoding is
exactly 8 bytes per component (little-endian, index order, no header, by the
shape of `putUint64LE` and `ToBytes`). -/
theorem fromBytes_toBytes_roundtrip (v : List Nat)
    (h : ∀ w ∈ v, w < 18446744073709551616) :
    FromBytes (ToBytes v) = some v ∧ (ToBytes v).length = 8 * v.length := by
  constructor
  · induction v with
    | nil => rfl
    | cons w ws ih =>
        have hw : w < 18446744073709551616 := h w (by simp)
        have hws : ∀ x ∈ ws, x < 18446744073709551616 :=
          fun x hx => h x (by simp [hx])
        have key : FromBytes (ToBytes (w :: ws)) =
            (FromBytes (ToBytes ws)).map
              (fun l => uint64LE (w % 256) (w / 256 % 256) (w / 65536 % 256)
                (w / 16777216 % 256) (w / 4294967296 % 256)
                (w / 1099511627776 % 256) (w / 281474976710656 % 256)
                (w / 72057594037927936 % 256) :: l) := rfl
        rw [key, ih hws, Option.map_some']
        rw [uint64LE_putUint64LE w hw]
  · induction v with
    | nil => rfl
    | cons w ws ih =>
        have hws : ∀ x ∈ ws, x < 18446744073709551616 :=
          fun x hx => h x (by simp [hx])
        simp only [ToBytes, List.flatMap_cons, List.length_append,
          List.length_cons, putUint64LE] at ih ⊢
        rw [ih hws]
        simp [List.length_nil]
        ring

/-- Witness for `fromBytes_toBytes_roundtrip` at the three-component
embedding with bit patterns `[0, 1, 2^64 − 1]`. -/
theorem fromBytes_toBytes_roundtrip_witness :
    (∀ w ∈ ([0, 1, 18446744073709551615] : List Nat), w < 18446744073709551616) ∧
    FromBytes (ToBytes [0, 1, 18446744073709551615]) =
      some [0, 1, 18446744073709551615] ∧
    (ToBytes [0, 1, 18446744073709551615]).length = 24 := by
  refine ⟨by decide, ?_, ?_⟩
  · exact (fromBytes_toBytes_roundtrip [0, 1, 18446744073709551615] (by decide)).1
  · exact (fromBytes_toBytes_roundtrip [0, 1, 18446744073709551615] (by decide)).2

/-- Supporting fact for claim C1, in full generality: whenever every
similarity in the (sorted) window is at least the outlier threshold, the
cutoff loop returns 0 no matter the running index — the code then keeps
`[0:0]`, i.e. nothing. -/
theorem cutoffLoop_all_clear (outlier : ℚ) (sims : List ℚ)
    (h : ∀ s ∈ sims, outlier ≤ s) : ∀ i, cutoffLoop outlier sims i = 0 := by
  induction sims with
  | nil => intro i; rfl
  | cons s rest ih =>
      intro i
      have hs : outlier ≤ s := h s (by simp)
      have hrest : ∀ x ∈ rest, outlier ≤ x := fun x hx => h x (by simp [hx])
      simp only [cutoffLoop, not_lt.mpr hs, if_false]
      exact ih hrest (i + 1)

/-- Supporting fact for claim C5, in full generality: a worker of
`SimilarityToVectorSet` hands `nil` back to the errgroup on every path —
also when a per-pair computation failed. -/
theorem workerRun_returns_nil (pair : Nat → Except Unit ℚ) (indices : List Nat)
    (similarities : Nat → ℚ) : (workerRun pair indices similarities).2 = none := by
  induction indices generalizing similarities with
  | nil => rfl
  | cons i rest ih =>
      simp only [workerRun]
      cases pair i with
      | error e => rfl
      | ok s => exact ih _

/-- Supporting fact for claim C5, in full generality: under every per-pair
outcome and every worker schedule, `group.Wait()` collects no error, so
`SimilarityToVectorSet` can never report a per-pair failure. -/
theorem runWorkers_collects_no_error (pair : Nat → Except Unit ℚ)
    (schedule : List (List Nat)) (similarities : Nat → ℚ) :
    (runWorkers pair schedule similarities).2 = none := by
  induction schedule generalizing similarities with
  | nil => rfl
  | cons indices ws ih =>
      simp only [runWorkers, workerRun_returns_nil, Option.orElse]
      exact ih _

/-- Supporting fact for claim C6, in full generality: no statement of any
migration plan ever begins with the characters `DROP T` — the plan vocabulary
is DROP INDEX, ALTER TABLE ... RENAME, CREATE TABLE, CREATE INDEX and
INSERT ... SELECT, so no plan drops the temporary table (nor any table). -/
theorem alterSchemaSQL_no_drop_table (s other : Schema) :
    ∀ q ∈ s.AlterSchemaSQL other, q.data.take 6 ≠ "DROP T".data := by
  intro q hq
  simp only [Schema.AlterSchemaSQL] at hq
  split at hq
  · simp only [List.mem_append, List.mem_map, List.mem_singleton] at hq
    rcases hq with (((⟨a, _, rfl⟩ | rfl) | rfl) | ⟨a, _, rfl⟩) | rfl
    · rw [String.data_append, List.take_append_of_le_length (by decide)]
      decide
    · simp only [String.data_append, List.append_assoc]
      rw [List.take_append_of_le_length (by decide)]
      decide
    · simp only [Schema.CreateTableSQL, String.data_append, List.append_assoc]
      rw [List.take_append_of_le_length (by decide)]
      decide
    · simp only [Index.CreateIndexSQL, String.data_append, List.append_assoc]
      rw [List.take_append_of_le_length (by decide)]
      decide
    · simp only [Schema.SQLMigrate, String.data_append, List.append_assoc]
      rw [List.take_append_of_le_length (by decide)]
      decide
  · simp only [List.mem_append, List.mem_map] at hq
    rcases hq with ⟨a, _, rfl⟩ | ⟨a, _, rfl⟩
    · rw [String.data_append, List.take_append_of_le_length (by decide)]
      decide
    · simp only [Index.CreateIndexSQL, String.data_append, List.append_assoc]
      rw [List.take_append_of_le_length (by decide)]
      decide

/-- Structural column equality is reflexive. -/
theorem Column.Equal_self (c : Column) : c.Equal c = true := by
  simp [Column.Equal]

/-- A column that occurs in a list is `IsIn` that list. -/
theorem Column.IsIn_of_mem {c : Column} {l : List Column} (h : c ∈ l) :
    c.IsIn l = true := by
  simp only [Column.IsIn, List.any_eq_true]
  exact ⟨c, h, Column.Equal_self c⟩

/-- The drop statements of the index-only migration path begin with the
characters `DROP INDEX`. -/
theorem drop_index_chars (t : String) :
    ("DROP INDEX IF EXISTS " ++ t).data.take 10 = "DROP INDEX".data := by
  rw [String.data_append, List.take_append_of_le_length (by decide)]
  decide

/-- CREATE INDEX statements begin with the characters `CREATE INDEX`. -/
theorem create_index_chars (i : Index) (tablename : String) :
    (i.CreateIndexSQL tablename).data.take 12 = "CREATE INDEX".data := by
  simp only [Index.CreateIndexSQL]
  rw [String.append_assoc, String.append_assoc, String.append_assoc,
    String.append_assoc, String.append_assoc]
  rw [String.data_append, List.take_append_of_le_length (by decide)]
  decide

/-- Claim C7. When the two schemas share their name and have equal column
lists, the generated plan is the index-only path: exactly one DROP INDEX
statement per removed index followed by exactly one CREATE INDEX statement
per added index — and every statement of the plan begins with `DROP INDEX`
or `CREATE INDEX`, so there is no rename, table-create, or row-copy
statement. -/
theorem alterSchemaSQL_index_only (s o : Schema) (hn : s.Name = o.Name)
    (hc : s.Columns = o.Columns) :
    s.AlterSchemaSQL o =
      ((s.GenerateDifference o).2.2.2).map
        (fun index => "DROP INDEX IF EXISTS " ++ (s.Name ++ "_" ++ index.Name)) ++
      ((s.GenerateDifference o).2.2.1).map
        (fun index => index.CreateIndexSQL o.Name) ∧
    ∀ q ∈ s.AlterSchemaSQL o,
      q.data.take 10 = "DROP INDEX".data ∨ q.data.take 12 = "CREATE INDEX".data := by
  have hadd : o.Columns.filter (fun col => !(col.IsIn s.Columns)) = [] := by
    rw [List.filter_eq_nil_iff]
    intro c hcm
    rw [hc]
    simp [Column.IsIn_of_mem hcm]
  have hrem : s.Columns.filter (fun col => !(col.IsIn o.Columns)) = [] := by
    rw [List.filter_eq_nil_iff]
    intro c hcm
    rw [hc] at hcm
    simp [Column.IsIn_of_mem hcm]
  have hplan : s.AlterSchemaSQL o =
      ((s.GenerateDifference o).2.2.2).map
        (fun index => "DROP INDEX IF EXISTS " ++ (s.Name ++ "_" ++ index.Name)) ++
      ((s.GenerateDifference o).2.2.1).map
        (fun index => index.CreateIndexSQL o.Name) := by
    simp only [Schema.AlterSchemaSQL, Schema.GenerateDifference, hadd, hrem, hn,
      List.length_nil, ne_eq, bne_self_eq_false, Bool.or_self, Bool.or_false,
      Bool.false_or, if_false]
    simp
  refine ⟨hplan, ?_⟩
  intro q hq
  rw [hplan] at hq
  rcases List.mem_append.mp hq with hd | hcr
  · rcases List.mem_map.mp hd with ⟨index, _, rfl⟩
    exact Or.inl (drop_index_chars _)
  · rcases List.mem_map.mp hcr with ⟨index, _, rfl⟩
    exact Or.inr (create_index_chars index o.Name)

/-- Witness for `alterSchemaSQL_index_only`: four base indexes, one removed
and one added, yield exactly one DROP and one CREATE INDEX statement. -/
theorem alterSchemaSQL_index_only_witness :
    baseIdxSchema.AlterSchemaSQL newIdxSchema =
      ((baseIdxSchema.GenerateDifference newIdxSchema).2.2.2).map
        (fun index => "DROP INDEX IF EXISTS " ++ (baseIdxSchema.Name ++ "_" ++ index.Name)) ++
      ((baseIdxSchema.GenerateDifference newIdxSchema).2.2.1).map
        (fun index => index.CreateIndexSQL newIdxSchema.Name) ∧
    baseIdxSchema.AlterSchemaSQL newIdxSchema =
      ["DROP INDEX IF EXISTS tbl_i4",
       "CREATE INDEX IF NOT EXISTS tbl_i5 ON tbl(id)"] :=
  ⟨(alterSchemaSQL_index_only baseIdxSchema newIdxSchema rfl rfl).1, by decide⟩

/-- The outlier-cutoff stage only shrinks the slice lengths; it never touches
the backing arrays. -/
theorem cutoffStage_backing {α : Type} (sqrtFn : ℚ → ℚ) (stdDeviations : ℚ)
    (st : QueryBuffers α) :
    (cutoffStage sqrtFn stdDeviations st).vBacking = st.vBacking ∧
    (cutoffStage sqrtFn stdDeviations st).sBacking = st.sBacking := by
  unfold cutoffStage
  split <;> simp

/-- Claim C10, amended. The claim states that whenever `Limit` exceeds the
number of results surviving the outlier cutoff, the final `[0:Limit]` step
aborts. In Go a re-slice is bounded by the backing array's capacity, not the
current length, so the call aborts exactly when `Limit` exceeds the
pre-cutoff candidate count `N` (= the capacity of the similarity slice; the
vectors slice has capacity ≥ N). When instead the cutoff left fewer than
`Limit` survivors but `Limit ≤ N`, the call returns normally and the
re-slices resurrect the first `Limit` entries of the *sorted pre-cutoff*
arrays, cutoff notwithstanding. -/
theorem querySimilarity_limit_overrun (α : Type) (sortedVectors capPad : List α)
    (sortedSims : List ℚ) (sqrtFn : ℚ → ℚ) (options : FilterOptions)
    (hlen : sortedVectors.length = sortedSims.length)
    (hover : (cutoffStage sqrtFn options.StdDeviations
      (postSortBuffers sortedVectors capPad sortedSims)).sLen < options.Limit) :
    (querySimilarityPostSort sqrtFn options
        (postSortBuffers sortedVectors capPad sortedSims) = none
      ↔ sortedSims.length < options.Limit) ∧
    (options.Limit ≤ sortedSims.length →
      querySimilarityPostSort sqrtFn options
          (postSortBuffers sortedVectors capPad sortedSims) =
        some (sortedVectors.take options.Limit, sortedSims.take options.Limit)) := by
  have hne : ¬ options.Limit = 0 := by omega
  have hvb := (cutoffStage_backing sqrtFn options.StdDeviations
    (postSortBuffers sortedVectors capPad sortedSims)).1
  have hsb := (cutoffStage_backing sqrtFn options.StdDeviations
    (postSortBuffers sortedVectors capPad sortedSims)).2
  have hvb2 : (cutoffStage sqrtFn options.StdDeviations
      (postSortBuffers sortedVectors capPad sortedSims)).vBacking =
      sortedVectors ++ capPad := hvb
  have hsb2 : (cutoffStage sqrtFn options.StdDeviations
      (postSortBuffers sortedVectors capPad sortedSims)).sBacking = sortedSims := hsb
  have hlapp : (sortedVectors ++ capPad).length =
      sortedVectors.length + capPad.length := List.length_append _ _
  unfold querySimilarityPostSort limitStage
  rw [hvb2, hsb2]
  simp only [hne, if_false]
  split_ifs with h1 h2
  · refine ⟨by simp; omega, fun h3 => ?_⟩
    rw [List.take_append_of_le_length (by omega)]
  · refine ⟨by simp; omega, fun h3 => absurd h3 h2⟩
  · refine ⟨by simp; omega, fun h3 => ?_⟩
    exact absurd h1 (by push_neg; omega)

/-- Witness for `querySimilarity_limit_overrun`: sorted scores `[8, 0]` with
`StdDeviations = 1` leave one survivor (mean 4, stddev 4, threshold 8; all
double arithmetic exact), yet `Limit = 2 ≤ N = 2` makes the call return the
full sorted pre-cutoff pair normally. -/
theorem querySimilarity_limit_overrun_witness :
    (cutoffStage ratSqrt (1 : ℚ)
      (postSortBuffers [10, 20] ([] : List ℕ) [8, 0])).sLen < 2 ∧
    querySimilarityPostSort ratSqrt ⟨1, 2⟩
        (postSortBuffers [10, 20] ([] : List ℕ) [8, 0]) =
      some ([10, 20], [8, 0]) := by
  have hover : (cutoffStage ratSqrt (FilterOptions.mk 1 2).StdDeviations
      (postSortBuffers [10, 20] ([] : List ℕ) [8, 0])).sLen <
      (FilterOptions.mk 1 2).Limit := by
    norm_num [cutoffStage, postSortBuffers, meanAndStandardDeviation, cutoffLoop,
      ratSqrt, Int.toNat]
  have h := (querySimilarity_limit_overrun ℕ [10, 20] [] [8, 0] ratSqrt
    ⟨1, 2⟩ rfl hover).2 (by norm_num)
  exact ⟨hover, by simpa using h⟩

/-- Claim C10 counterexample. A concrete `QuerySimilarity` call in which
`Limit = 2` exceeds the single cutoff survivor, yet the final truncation step
returns normally (with the resurrected sorted pre-cutoff entries) instead of
aborting. -/
theorem limit_overrun_returns_normally :
    (cutoffStage ratSqrt (1 : ℚ)
      (postSortBuffers [10, 20] ([] : List ℕ) [8, 0])).sLen = 1 ∧
    querySimilarityPostSort ratSqrt ⟨1, 2⟩
        (postSortBuffers [10, 20] ([] : List ℕ) [8, 0]) ≠ none := by
  constructor
  · norm_num [cutoffStage, postSortBuffers, meanAndStandardDeviation, cutoffLoop,
      ratSqrt, Int.toNat]
  · have h : querySimilarityPostSort ratSqrt ⟨1, 2⟩
        (postSortBuffers [10, 20] ([] : List ℕ) [8, 0]) =
        some ([10, 20], [8, 0]) := by
      norm_num [querySimilarityPostSort, limitStage, cutoffStage, postSortBuffers,
        meanAndStandardDeviation, cutoffLoop, ratSqrt, Int.toNat]
    rw [h]
    simp

end Gsvt
